import Mathlib

/-!
Verification of the MySQL-simulator wire-protocol engine
(src/modules/mysql-simulator/index.js) against its specification.

The JavaScript source is shallowly embedded: Node `Buffer` values become
`List Nat` of bytes, JS numbers become `Nat`/`Int` with explicit truncation
where the source truncates, fallible byte reads (which throw `RangeError`
in Node) become `Option`/`Except`, and the per-connection mutable state
becomes explicit state passing.
-/

set_option maxHeartbeats 1000000

namespace MysqlSim

/-! ## Byte-level primitives -/

/-- `k` little-endian bytes of `v`, truncating at `256^k`
(models `Buffer.writeUIntLE` / `Buffer.writeBigUInt64LE`). -/
def leBytes : Nat → Nat → List Nat
  | 0, _ => []
  | k + 1, v => v % 256 :: leBytes k (v / 256)

/-- Value denoted by a little-endian byte list. -/
def leValue : List Nat → Nat
  | [] => 0
  | b :: bs => b + 256 * leValue bs

/-- Model of `buffer.readUIntLE(off, k)` and friends: `none` models the
`RangeError` Node throws when the read runs past the buffer. -/
def readUIntLEAt (b : List Nat) (off k : Nat) : Option Nat :=
  if off + k ≤ b.length then some (leValue ((b.drop off).take k)) else none

/-- Fueled bit length (`bitLenAux fuel n` = number of binary digits of `n`,
correct whenever `n < 2 ^ fuel`). Fueled to keep kernel reduction available. -/
def bitLenAux : Nat → Nat → Nat
  | 0, _ => 0
  | fuel + 1, n => if n = 0 then 0 else bitLenAux fuel (n / 2) + 1

/-- Bit length of a natural number below `2 ^ 128`. -/
def bitLen (n : Nat) : Nat := bitLenAux 128 n

/-- Rounding of a nonnegative integer to the nearest IEEE-754 binary64 value
(ties to even), which is what JavaScript `Number(bigint)` performs. The result
is exact below `2 ^ 53`; above it the low bits are rounded away. -/
def jsNumberNat (n : Nat) : Nat :=
  if n < 2 ^ 53 then n
  else
    let unit := 2 ^ (bitLen n - 53)
    let q := n / unit
    let r := n % unit
    if 2 * r < unit then q * unit
    else if unit < 2 * r then (q + 1) * unit
    else if q % 2 = 0 then q * unit else (q + 1) * unit

/-- JavaScript `Number()` conversion of a (signed) big integer. -/
def jsNumberInt (n : Int) : Int :=
  if 0 ≤ n then (jsNumberNat n.toNat : Int) else -(jsNumberNat (-n).toNat : Int)

/-! ## Packet codec (index.js lines 190-331) -/

/-- `writeLengthEncodedInteger` (index.js:190-210). -/
def writeLengthEncodedInteger (value : Nat) : List Nat :=
  if value < 0xfb then [value]
  else if value < 0x10000 then 0xfc :: leBytes 2 value
  else if value < 0x1000000 then 0xfd :: leBytes 3 value
  else 0xfe :: leBytes 8 value

/-- `readLengthEncodedInteger` (index.js:316-331). The outer `none` models a
thrown `RangeError` (a multi-byte read past the buffer); the inner `none` is
the source's `[null, 1]` return (lead byte `0xfb`/`0xff`, or an out-of-bounds
single-byte read yielding `undefined`, which fails every comparison). The
8-byte branch applies `Number()` to the decoded BigInt as the source does. -/
def readLengthEncodedInteger (b : List Nat) (off : Nat) : Option (Option Nat × Nat) :=
  match b.get? off with
  | none => some (none, 1)
  | some first =>
    if first < 0xfb then some (some first, 1)
    else if first = 0xfc then (readUIntLEAt b (off + 1) 2).map (fun v => (some v, 3))
    else if first = 0xfd then (readUIntLEAt b (off + 1) 3).map (fun v => (some v, 4))
    else if first = 0xfe then (readUIntLEAt b (off + 1) 8).map (fun v => (some (jsNumberNat v), 9))
    else some (none, 1)

/-- `buildPacket` (index.js:217-222): 3-byte little-endian payload length,
one sequence byte (`header[3] = sequenceId` truncates modulo 256), payload. -/
def buildPacket (sequenceId : Nat) (payload : List Nat) : List Nat :=
  leBytes 3 payload.length ++ sequenceId % 256 :: payload

/-- One iteration of the framing loop in `createConnectionHandler`
(index.js:964-972): with at least 4 buffered bytes and at least
`4 + declared length` bytes in total, consume one packet and return
`(payload, sequence id, remainder)`; otherwise consume nothing. -/
def tryFramePacket : List Nat → Option (List Nat × Nat × List Nat)
  | b0 :: b1 :: b2 :: b3 :: rest =>
    let packetLength := b0 + 256 * (b1 + 256 * b2)
    if rest.length < packetLength then none
    else some (rest.take packetLength, b3, rest.drop packetLength)
  | _ => none

/-- The length declared by a buffer's (possibly incomplete) 3-byte header. -/
def declaredLength (buffer : List Nat) : Nat := leValue (buffer.take 3)

/-! ## Character and string helpers (SQL text is modelled as `List Char`) -/

/-- ASCII whitespace recognized by JS `String.prototype.trim` and the regex
class for whitespace (the Unicode space classes are not exercised here). -/
def isJsSpace (c : Char) : Bool :=
  c = ' ' ∨ c = '\t' ∨ c = '\n' ∨ c = '\r' ∨ c = '\x0b' ∨ c = '\x0c'

/-- JS `String.prototype.trim`. -/
def jsTrim (s : List Char) : List Char :=
  ((s.dropWhile isJsSpace).reverse.dropWhile isJsSpace).reverse

/-- JS `String.prototype.toUpperCase` (ASCII range). -/
def toUpperStr (s : List Char) : List Char := s.map Char.toUpper

/-- UTF-8 encoding of one Unicode scalar value. -/
def utf8Char (n : Nat) : List Nat :=
  if n < 0x80 then [n]
  else if n < 0x800 then [0xc0 + n / 64, 0x80 + n % 64]
  else if n < 0x10000 then [0xe0 + n / 4096, 0x80 + n / 64 % 64, 0x80 + n % 64]
  else [0xf0 + n / 262144, 0x80 + n / 4096 % 64, 0x80 + n / 64 % 64, 0x80 + n % 64]

/-- `Buffer.from(s, "utf8")`: UTF-8 bytes of a string. -/
def utf8 (s : List Char) : List Nat := (s.map (fun c => utf8Char c.toNat)).flatten

/-- Fueled UTF-8 decoder modelling `buffer.toString("utf8")`. Node decodes
lossily (never throws); ill-formed sequences are approximated by the
replacement character. All inputs exercised by the claims are ASCII. -/
def decodeUtf8Aux : Nat → List Nat → List Char
  | 0, _ => []
  | _ + 1, [] => []
  | fuel + 1, b :: rest =>
    if b < 0x80 then Char.ofNat b :: decodeUtf8Aux fuel rest
    else if b < 0xe0 then
      match rest with
      | b2 :: r => Char.ofNat ((b % 32) * 64 + b2 % 64) :: decodeUtf8Aux fuel r
      | [] => [Char.ofNat 0xfffd]
    else if b < 0xf0 then
      match rest with
      | b2 :: b3 :: r =>
        Char.ofNat ((b % 16) * 4096 + (b2 % 64) * 64 + b3 % 64) :: decodeUtf8Aux fuel r
      | _ => [Char.ofNat 0xfffd]
    else
      match rest with
      | b2 :: b3 :: b4 :: r =>
        Char.ofNat ((b % 8) * 262144 + (b2 % 64) * 4096 + (b3 % 64) * 64 + b4 % 64) ::
          decodeUtf8Aux fuel r
      | _ => [Char.ofNat 0xfffd]

/-- `buffer.toString("utf8")`. -/
def decodeUtf8 (b : List Nat) : List Char := decodeUtf8Aux b.length b

/-- Decimal digits of a positive natural number (fueled). -/
def natDigitsAux : Nat → Nat → List Char
  | 0, _ => []
  | fuel + 1, n =>
    if n = 0 then [] else natDigitsAux fuel (n / 10) ++ [Char.ofNat (48 + n % 10)]

/-- JS `String(n)` for a nonnegative integer. -/
def natToString (n : Nat) : List Char :=
  if n = 0 then ['0'] else natDigitsAux 32 n

/-- `padNumber` (index.js:371-373): `String(value).padStart(length, "0")`. -/
def padNumber (value len : Nat) : List Char :=
  let s := natToString value
  List.replicate (len - s.length) '0' ++ s

/-! ## Placeholder counting (index.js:333-358) -/

/-- The scanning loop of `countStatementParameters` (index.js:333-358): one
step per character, carrying the previous character and the three quote
flags; a question mark outside all quoted regions contributes one to the
count, and a quote character whose predecessor is a backslash does not
toggle its flag. -/
def countParamsLoop : List Char → Option Char → Bool → Bool → Bool → Nat
  | [], _, _, _, _ => 0
  | c :: rest, prev, inSingle, inDouble, inBacktick =>
    if c = '\'' ∧ ¬inDouble ∧ ¬inBacktick ∧ prev ≠ some '\\' then
      countParamsLoop rest (some c) (!inSingle) inDouble inBacktick
    else if c = '"' ∧ ¬inSingle ∧ ¬inBacktick ∧ prev ≠ some '\\' then
      countParamsLoop rest (some c) inSingle (!inDouble) inBacktick
    else if c = '\x60' ∧ ¬inSingle ∧ ¬inDouble ∧ prev ≠ some '\\' then
      countParamsLoop rest (some c) inSingle inDouble (!inBacktick)
    else if c = '?' ∧ ¬inSingle ∧ ¬inDouble ∧ ¬inBacktick then
      countParamsLoop rest (some c) inSingle inDouble inBacktick + 1
    else
      countParamsLoop rest (some c) inSingle inDouble inBacktick

/-- `countStatementParameters` (index.js:333-358). -/
def countStatementParameters (sql : List Char) : Nat :=
  countParamsLoop sql none false false false

/-- Region state for the specification-level reading of the scan. -/
inductive QuoteRegion where
  | plain
  | single
  | double
  | backtick
deriving DecidableEq

/-- Modelled from the spec wording: a quote-aware scan counting `?`
placeholders outside single-, double-, and backtick-quoted regions, where a
quote delimiter preceded by a backslash does not open or close its region.
Stated with a single region state, to be compared with the flag-based source
translation `countStatementParameters`. -/
def quoteAwareCount : List Char → Option Char → QuoteRegion → Nat
  | [], _, _ => 0
  | c :: rest, prev, region =>
    match region with
    | .plain =>
      if c = '\'' ∧ prev ≠ some '\\' then quoteAwareCount rest (some c) .single
      else if c = '"' ∧ prev ≠ some '\\' then quoteAwareCount rest (some c) .double
      else if c = '\x60' ∧ prev ≠ some '\\' then quoteAwareCount rest (some c) .backtick
      else if c = '?' then quoteAwareCount rest (some c) .plain + 1
      else quoteAwareCount rest (some c) .plain
    | .single =>
      if c = '\'' ∧ prev ≠ some '\\' then quoteAwareCount rest (some c) .plain
      else quoteAwareCount rest (some c) .single
    | .double =>
      if c = '"' ∧ prev ≠ some '\\' then quoteAwareCount rest (some c) .plain
      else quoteAwareCount rest (some c) .double
    | .backtick =>
      if c = '\x60' ∧ prev ≠ some '\\' then quoteAwareCount rest (some c) .plain
      else quoteAwareCount rest (some c) .backtick

/-! ## Binary parameter decoding (index.js:371-524) -/

/-- Tagged decoded parameter value (the source passes untyped JS values to
the engine). FLOAT/DOUBLE keep their raw little-endian bytes uninterpreted,
since no claim depends on IEEE-754 semantics. -/
inductive SqlValue where
  | null
  | int (n : Int)
  | text (s : List Char)
  | blob (b : List Nat)
  | floatBits (b : List Nat)
deriving DecidableEq

/-- Message used for modelled `RangeError`s from out-of-bounds buffer reads
(the exact Node message text is irrelevant to every claim). -/
def rangeErr : List Char := "offset out of range".toList

/-- `buffer[off]` where the source immediately requires a number (an
out-of-bounds single-byte read inside the typed decoders feeds garbage into
string rendering in JS; modelled as a range error, unreachable in claims). -/
def readU8 (b : List Nat) (off : Nat) : Except (List Char) Nat :=
  match b.get? off with
  | some v => .ok v
  | none => .error rangeErr

/-- `buffer.readUInt16LE(off)`. -/
def readU16LE (b : List Nat) (off : Nat) : Except (List Char) Nat :=
  match readUIntLEAt b off 2 with
  | some v => .ok v
  | none => .error rangeErr

/-- `buffer.readUInt32LE(off)`. -/
def readU32LE (b : List Nat) (off : Nat) : Except (List Char) Nat :=
  match readUIntLEAt b off 4 with
  | some v => .ok v
  | none => .error rangeErr

/-- `buffer.readInt8(off)`. -/
def readI8 (b : List Nat) (off : Nat) : Except (List Char) Int :=
  (readU8 b off).map fun v => if 128 ≤ v then (v : Int) - 256 else (v : Int)

/-- `buffer.readInt16LE(off)`. -/
def readI16LE (b : List Nat) (off : Nat) : Except (List Char) Int :=
  (readU16LE b off).map fun v => if 2 ^ 15 ≤ v then (v : Int) - 2 ^ 16 else (v : Int)

/-- `buffer.readInt32LE(off)`. -/
def readI32LE (b : List Nat) (off : Nat) : Except (List Char) Int :=
  (readU32LE b off).map fun v => if 2 ^ 31 ≤ v then (v : Int) - 2 ^ 32 else (v : Int)

/-- Raw byte slice with bounds check (for the FLOAT/DOUBLE reads). -/
def readBytesAt (b : List Nat) (off k : Nat) : Except (List Char) (List Nat) :=
  if off + k ≤ b.length then .ok ((b.drop off).take k) else .error rangeErr

/-- `parseBinaryDateOrDateTime` (index.js:375-415). -/
def parseBinaryDateOrDateTime (buffer : List Nat) (offset ty : Nat) :
    Except (List Char) (SqlValue × Nat) := do
  let len ← readU8 buffer offset
  if len = 0 then
    if ty = 0x0a ∨ ty = 0x0e then return (.text "0000-00-00".toList, 1)
    else return (.text "0000-00-00 00:00:00".toList, 1)
  else
    let year ← readU16LE buffer (offset + 1)
    let month ← readU8 buffer (offset + 3)
    let day ← readU8 buffer (offset + 4)
    let datePart := padNumber year 4 ++ '-' :: (padNumber month 2 ++ '-' :: padNumber day 2)
    if ty = 0x0a ∨ ty = 0x0e ∨ len = 4 then return (.text datePart, 5)
    else
      let hour ← readU8 buffer (offset + 5)
      let minute ← readU8 buffer (offset + 6)
      let second ← readU8 buffer (offset + 7)
      let dt := datePart ++ ' ' ::
        (padNumber hour 2 ++ ':' :: (padNumber minute 2 ++ ':' :: padNumber second 2))
      if 7 < len then
        let micro ← readU32LE buffer (offset + 8)
        let dt2 := if 0 < micro then dt ++ '.' :: padNumber micro 6 else dt
        return (.text dt2, 12)
      else return (.text dt, 8)

/-- `parseBinaryTime` (index.js:417-449). -/
def parseBinaryTime (buffer : List Nat) (offset : Nat) :
    Except (List Char) (SqlValue × Nat) := do
  let len ← readU8 buffer offset
  if len = 0 then return (.text "00:00:00".toList, 1)
  else
    let neg ← readU8 buffer (offset + 1)
    let days ← readU32LE buffer (offset + 2)
    let hours ← readU8 buffer (offset + 6)
    let minutes ← readU8 buffer (offset + 7)
    let seconds ← readU8 buffer (offset + 8)
    let microAndConsumed ←
      if 8 < len then do
        let m ← readU32LE buffer (offset + 9)
        pure (m, 13)
      else pure (0, 9)
    let totalHours := days * 24 + hours
    let base := padNumber totalHours 2 ++ ':' ::
      (padNumber minutes 2 ++ ':' :: padNumber seconds 2)
    let withMicro :=
      if 0 < microAndConsumed.1 then base ++ '.' :: padNumber microAndConsumed.1 6 else base
    let result := if neg = 1 then '-' :: withMicro else withMicro
    return (.text result, microAndConsumed.2)

/-- The length-encoded string/blob tail shared by the string family and the
default case of `parseBinaryParameterValue` (index.js:496-523): a
length-encoded integer (a `null` length coerces to 0 in the JS arithmetic)
followed by that many bytes, with `subarray` clamping at the buffer end. -/
def stringParamTail (buffer : List Nat) (offset : Nat) (isBlob : Bool) :
    Except (List Char) (SqlValue × Nat) :=
  match readLengthEncodedInteger buffer offset with
  | none => .error rangeErr
  | some (lenOpt, consumed) =>
    let len := lenOpt.getD 0
    let slice := (buffer.drop (offset + consumed)).take len
    if isBlob then .ok (.blob slice, consumed + len)
    else .ok (.text (decodeUtf8 slice), consumed + len)

/-- `parseBinaryParameterValue` (index.js:451-524). `ty = none` models an
undefined type code (which matches no switch case in JS and falls to the
default string path). -/
def parseBinaryParameterValue (buffer : List Nat) (offset : Nat) (ty : Option Nat)
    (unsignedFlag : Bool) : Except (List Char) (SqlValue × Nat) :=
  match ty with
  | none => stringParamTail buffer offset false
  | some t =>
    if t = 0x06 then .ok (.null, 0)
    else if t = 0x01 then
      if unsignedFlag then (readU8 buffer offset).map (fun v => (.int v, 1))
      else (readI8 buffer offset).map (fun v => (.int v, 1))
    else if t = 0x02 then
      if unsignedFlag then (readU16LE buffer offset).map (fun v => (.int v, 2))
      else (readI16LE buffer offset).map (fun v => (.int v, 2))
    else if t = 0x03 then
      if unsignedFlag then (readU32LE buffer offset).map (fun v => (.int v, 4))
      else (readI32LE buffer offset).map (fun v => (.int v, 4))
    else if t = 0x08 then do
      let low ← readU32LE buffer offset
      let high ← readU32LE buffer (offset + 4)
      let magnitude : Int := (high : Int) * 2 ^ 32 + (low : Int)
      let value : Int :=
        if ¬unsignedFlag ∧ 2 ^ 31 ≤ high then magnitude - 2 ^ 64 else magnitude
      return (.int (jsNumberInt value), 8)
    else if t = 0x04 then (readBytesAt buffer offset 4).map (fun bs => (.floatBits bs, 4))
    else if t = 0x05 then (readBytesAt buffer offset 8).map (fun bs => (.floatBits bs, 8))
    else if t = 0x07 ∨ t = 0x0c ∨ t = 0x0a ∨ t = 0x0e then
      parseBinaryDateOrDateTime buffer offset t
    else if t = 0x0b then parseBinaryTime buffer offset
    else if t = 0x0d then (readU8 buffer offset).map (fun v => (.int ((v : Int) + 1900), 1))
    else if t = 0xf9 ∨ t = 0xfa ∨ t = 0xfb ∨ t = 0xfc ∨ t = 0xff ∨ t = 0x10 then
      stringParamTail buffer offset true
    else if t = 0xf5 ∨ t = 0x00 ∨ t = 0xf6 ∨ t = 0x0f ∨ t = 0xfe ∨ t = 0xfd then
      stringParamTail buffer offset false
    else stringParamTail buffer offset false

/-! ## Association-list helpers (JS `Map` keyed by insertion order) -/

/-- `map.get(key)`. -/
def alookup {α β : Type} [DecidableEq α] : List (α × β) → α → Option β
  | [], _ => none
  | (k, v) :: rest, key => if k = key then some v else alookup rest key

/-- `map.set(key, value)`: replace in place when present, append when new. -/
def aset {α β : Type} [DecidableEq α] (l : List (α × β)) (key : α) (v : β) :
    List (α × β) :=
  if (alookup l key).isSome then l.map (fun p => if p.1 = key then (key, v) else p)
  else l ++ [(key, v)]

/-- `map.delete(key)`. -/
def adelete {α β : Type} [DecidableEq α] (l : List (α × β)) (key : α) : List (α × β) :=
  l.filter (fun p => p.1 ≠ key)

/-! ## Database registry (index.js:77-188) -/

/-- Cached per-table metadata: ordered column names and a row count. -/
structure TableMeta where
  columns : List (List Char)
  rowCount : Nat
deriving DecidableEq

/-- One entry of `state.databases` (index.js:79): logical name, sanitized
name, backing file path, and the table-metadata cache. -/
structure DbEntry where
  name : List Char
  sanitized : List Char
  file : List Char
  tables : List (List Char × TableMeta)
deriving DecidableEq

/-- The module-level mutable `state` (index.js:77-80). -/
structure Registry where
  queryCount : Nat
  databases : List (List Char × DbEntry)
deriving DecidableEq

/-- Decoded result-row cell; numeric engine values are modelled after their
`String(value)` conversion, which is all the packet builders observe. -/
inductive Cell where
  | null
  | text (s : List Char)
  | blob (b : List Nat)
deriving DecidableEq

/-- Abstract interface to the embedded better-sqlite3 engine, supplied as an
oracle: `meta` is the database's current table metadata (`sqlite_master` +
`PRAGMA table_info` + `COUNT(*)` as read by `refreshDatabaseMetadata`),
`runStmt` executes a statement for effect and returns the new engine state
and `changes`, `queryStmt` runs a SELECT returning the resolved column names
and row tuples (the source's column-name fallbacks happen on the engine's
answer). `.error` carries a thrown engine message. -/
structure SqlEngine (E : Type) where
  meta : E → List Char → List (List Char × TableMeta)
  runStmt : E → List Char → List Char → List SqlValue → Except (List Char) (E × Nat)
  queryStmt : E → List Char → List Char → List SqlValue →
    Except (List Char) (List (List Char) × List (List Cell))

/-- `sanitizeDatabaseName` (index.js:116-118): `String(name || "default")
.trim().replace(/[^A-Za-z0-9_]/g, "_") || "default"` — disallowed characters
are REPLACED by an underscore, not removed. -/
def sanitizeDatabaseName (name : List Char) : List Char :=
  let base := if name = [] then "default".toList else name
  let trimmed := jsTrim base
  let replaced := trimmed.map (fun c => if c.isAlphanum ∨ c = '_' then c else '_')
  if replaced = [] then "default".toList else replaced

/-- Modelled from the spec words for comparison with the source translation
`sanitizeDatabaseName`: the logical name with non-alphanumeric,
non-underscore characters stripped (removed). -/
def strippedSpecName (name : List Char) : List Char :=
  let base := if name = [] then "default".toList else name
  let trimmed := jsTrim base
  let stripped := trimmed.filter (fun c => c.isAlphanum ∨ c = '_')
  if stripped = [] then "default".toList else stripped

/-- The fixed data directory (`path.join(__dirname, "data")`). -/
def dataDirectory : List Char := "data".toList

/-- `path.join(dataDirectory, sanitized + ".sqlite")` (index.js:122). -/
def dbFilePath (sanitized : List Char) : List Char :=
  dataDirectory ++ '/' :: (sanitized ++ ".sqlite".toList)

/-- `getDatabaseEntry` (index.js:120-145): create-on-first-reference, keyed
by the logical (unsanitized) name; the backing file is named after the
sanitized name. -/
def getDatabaseEntry (r : Registry) (name : List Char) : Registry × DbEntry :=
  match alookup r.databases name with
  | some entry => (r, entry)
  | none =>
    let sanitized := sanitizeDatabaseName name
    let entry : DbEntry :=
      { name := name, sanitized := sanitized, file := dbFilePath sanitized, tables := [] }
    ({ r with databases := r.databases ++ [(name, entry)] }, entry)

/-- `refreshDatabaseMetadata` (index.js:147-172): rebuild the entry's table
cache from the engine's current state. -/
def refreshDatabaseMetadata {E : Type} (eng : SqlEngine E) (e : E) (r : Registry)
    (name : List Char) : Registry :=
  let p := getDatabaseEntry r name
  { p.1 with databases := aset p.1.databases name { p.2 with tables := eng.meta e name } }

/-- The per-database table portion of `buildMetricsSnapshot` (index.js:174-188):
`(name, columnCount, rowCount)` triples as served by `/metrics`. -/
def metricsTables (r : Registry) (name : List Char) :
    Option (List (List Char × Nat × Nat)) :=
  (alookup r.databases name).map
    (fun e => e.tables.map (fun p => (p.1, p.2.columns.length, p.2.rowCount)))

/-- `sql.trim().replace(/;+$/g, "")` (index.js:528/551). -/
def stripTrailingSemis (s : List Char) : List Char :=
  (s.reverse.dropWhile (fun c => c = ';')).reverse

/-- `.replace(/;$/, "")`: at most one trailing semicolon removed. -/
def stripOneSemi (s : List Char) : List Char :=
  match s.reverse with
  | ';' :: rest => rest.reverse
  | _ => s

/-- The statement text handed to `prepare` (index.js:529/552): the normalized
text, falling back to the raw text when normalization leaves nothing. -/
def normalizeSql (sql : List Char) : List Char :=
  let n := stripTrailingSemis (jsTrim sql)
  if n = [] then sql else n

/-- `runSelectQuery` (index.js:526-547): ensure the database entry exists,
then run the SELECT through the engine. -/
def runSelectQuery {E : Type} (eng : SqlEngine E) (e : E) (r : Registry)
    (name sql : List Char) (params : List SqlValue) :
    Registry × Except (List Char) (List (List Char) × List (List Cell)) :=
  let p := getDatabaseEntry r name
  (p.1, eng.queryStmt e name (normalizeSql sql) params)

/-- `runNonSelectQuery` (index.js:549-560): execute for effect, then refresh
the target database's metadata cache before returning the affected rows. -/
def runNonSelectQuery {E : Type} (eng : SqlEngine E) (e : E) (r : Registry)
    (name sql : List Char) (params : List SqlValue) :
    E × Registry × Except (List Char) Nat :=
  let p := getDatabaseEntry r name
  match eng.runStmt e name (normalizeSql sql) params with
  | .error msg => (e, p.1, .error msg)
  | .ok (e2, changes) => (e2, refreshDatabaseMetadata eng e2 p.1 name, .ok changes)

/-! ## Response packet builders (index.js:212-314, 360-369) -/

/-- `writeLengthEncodedString` (index.js:212-215). -/
def writeLengthEncodedString (value : List Char) : List Nat :=
  let sb := utf8 value
  writeLengthEncodedInteger sb.length ++ sb

/-- `buildOkPacket` (index.js:224-234). -/
def buildOkPacket (sequenceId affectedRows lastInsertId status warnings : Nat)
    (message : List Char) : List Nat :=
  buildPacket sequenceId
    (0x00 :: (writeLengthEncodedInteger affectedRows ++
      writeLengthEncodedInteger lastInsertId ++
      [status % 256, status / 256 % 256, warnings % 256, warnings / 256 % 256] ++
      utf8 message))

/-- `buildErrPacket` (index.js:236-244); every call site uses the default
code 0x1235 and SQL state "HY000", and a falsy message becomes
"Unknown error". -/
def buildErrPacket (sequenceId : Nat) (message : List Char) : List Nat :=
  let m := if message = [] then "Unknown error".toList else message
  buildPacket sequenceId (0xff :: 0x35 :: 0x12 :: (utf8 "#HY000".toList ++ utf8 m))

/-- `buildEofPacket` (index.js:246-255); every call site uses the defaults
(status 0x0002, warnings 0). -/
def buildEofPacket (sequenceId : Nat) : List Nat :=
  buildPacket sequenceId [0xfe, 0x00, 0x00, 0x02, 0x00]

/-- `buildColumnDefinitionPacket` (index.js:257-274). -/
def buildColumnDefinitionPacket (sequenceId : Nat) (schema table name : List Char) :
    List Nat :=
  buildPacket sequenceId
    (writeLengthEncodedString "def".toList ++
      writeLengthEncodedString schema ++
      writeLengthEncodedString table ++
      writeLengthEncodedString table ++
      writeLengthEncodedString name ++
      writeLengthEncodedString name ++
      [0x0c] ++ [0x21, 0x00] ++ [0xff, 0xff, 0x00, 0x00] ++ [0xfd] ++
      [0x00, 0x00] ++ [0x00] ++ [0x00, 0x00])

/-- `buildRowPacket` (index.js:276-287): text-protocol row; NULL cells are the
0xfb marker, everything else a length-encoded string (a raw `Buffer` cell is
modelled by its bytes). -/
def buildRowPacket (sequenceId : Nat) (values : List Cell) : List Nat :=
  buildPacket sequenceId ((values.map (fun v =>
    match v with
    | .null => [0xfb]
    | .text s => writeLengthEncodedString s
    | .blob b => writeLengthEncodedInteger b.length ++ b)).flatten)

/-- `buildBinaryRowPacket` (index.js:289-314): leading 0x00, a null bitmap of
`columnCount + 2` bits starting at bit offset 2 (out-of-range `values[index]`
reads yield `undefined`, which counts as NULL), then the non-null values. -/
def buildBinaryRowPacket (sequenceId : Nat) (values : List Cell) (columnCount : Nat) :
    List Nat :=
  let nullBitmapLength := (columnCount + 2 + 7) / 8
  let isNullAt : Nat → Bool := fun index =>
    match values.get? index with
    | some .null => true
    | some _ => false
    | none => true
  let bitmap := (List.range nullBitmapLength).map (fun byteIdx =>
    (List.range 8).foldl (fun acc bit =>
      let k := byteIdx * 8 + bit
      if 2 ≤ k ∧ k < columnCount + 2 ∧ isNullAt (k - 2) then acc + 2 ^ bit else acc) 0)
  let valueParts := ((List.range columnCount).map (fun index =>
    match values.get? index with
    | some (.text s) => writeLengthEncodedString s
    | some (.blob b) => writeLengthEncodedInteger b.length ++ b
    | _ => [])).flatten
  buildPacket sequenceId (0x00 :: (bitmap ++ valueParts))

/-- `buildStmtPrepareOkPacket` (index.js:360-369). -/
def buildStmtPrepareOkPacket (sequenceId statementId numColumns numParams warnings : Nat) :
    List Nat :=
  buildPacket sequenceId
    (0x00 :: (leBytes 4 statementId ++ leBytes 2 numColumns ++ leBytes 2 numParams ++
      [0x00] ++ leBytes 2 warnings))

/-- The sequence-id byte of a built packet (header byte 3). -/
def seqByte (packet : List Nat) : Nat := packet.getD 3 0

/-- The expected header sequence bytes of `n` consecutively numbered packets
starting at `s` (the header byte wraps modulo 256). -/
def seqBytesFrom (s n : Nat) : List Nat := (List.range n).map (fun k => (s + k) % 256)

/-- "The first packet of this reply, if any, carries sequence byte `s`." -/
def headSeqOk (pkts : List (List Nat)) (s : Nat) : Prop :=
  ∀ p, pkts.head? = some p → seqByte p = s % 256

/-! ## Connection state (index.js:947-958) -/

/-- Session state of a connection. -/
inductive ConnState where
  | initial
  | handshake
  | ready
deriving DecidableEq

/-- State of one prepared statement (index.js:800-806). A `paramTypes` entry
is `none` for the JS `null` fill, and `some (none, u)` when an out-of-range
read stored an `undefined` type code. -/
structure PreparedStatement where
  id : Nat
  sql : List Char
  paramCount : Nat
  paramTypes : List (Option (Option Nat × Bool))
  columnNames : List (List Char)
deriving DecidableEq

/-- Per-connection state (index.js:949-958), minus the socket and the raw
byte buffer (framing is modelled separately by `tryFramePacket`). -/
structure Conn where
  connState : ConnState
  currentDatabase : Option (List Char)
  username : List Char
  preparedStatements : List (Nat × PreparedStatement)
  nextStatementId : Nat
deriving DecidableEq

/-- JS `a || b` on strings: the empty string is falsy. -/
def jsOrStr (a b : List Char) : List Char := if a = [] then b else a

/-- A freshly accepted connection after the handshake reply, before any
`USE`: empty statement registry, statement counter 1 (index.js:949-958). -/
def freshConn : Conn :=
  { connState := .ready, currentDatabase := none, username := [],
    preparedStatements := [], nextStatementId := 1 }

/-- The empty process-wide registry (server start). -/
def emptyRegistry : Registry := { queryCount := 0, databases := [] }

/-! ## Result-set emission (index.js:631-659) -/

/-- The column-definition loop of `sendResultSet`: one packet per column,
sequence id incremented per iteration. -/
def columnPackets (schema table : List Char) : Nat → List (List Char) → List (List Nat)
  | _, [] => []
  | s, c :: cs =>
    buildColumnDefinitionPacket s schema table c :: columnPackets schema table (s + 1) cs

/-- The row loop of `sendResultSet`. -/
def rowPackets (binary : Bool) (columnCount : Nat) : Nat → List (List Cell) → List (List Nat)
  | _, [] => []
  | s, row :: rows =>
    (if binary then buildBinaryRowPacket s row columnCount else buildRowPacket s row) ::
      rowPackets binary columnCount (s + 1) rows

/-- `sendResultSet` (index.js:631-659): column count, column definitions,
EOF, rows (text or binary), EOF, with consecutive sequence ids from
`sequenceStart`. -/
def sendResultSet (sequenceStart : Nat) (conn : Conn) (columns : List (List Char))
    (rows : List (List Cell)) (metaSchema metaTable : List Char) (binary : Bool) :
    List (List Nat) :=
  let schema := jsOrStr metaSchema (conn.currentDatabase.getD [])
  buildPacket sequenceStart (writeLengthEncodedInteger columns.length) ::
    (columnPackets schema metaTable (sequenceStart + 1) columns ++
      buildEofPacket (sequenceStart + 1 + columns.length) ::
        (rowPackets binary columns.length (sequenceStart + 2 + columns.length) rows ++
          [buildEofPacket (sequenceStart + 2 + columns.length + rows.length)]))

/-! ## SQL execution adapter (index.js:562-594, 720-788) -/

/-- `handleShowDatabases` (index.js:562-566). -/
def handleShowDatabases (seq : Nat) (conn : Conn) (r : Registry) : List (List Nat) :=
  let rows := r.databases.map (fun p => [Cell.text p.1])
  sendResultSet seq conn ["Database".toList] rows
    "information_schema".toList "SCHEMATA".toList false

/-- `handleShowTables` (index.js:568-578): requires a (truthy) current
database, refreshes its metadata, then lists the cached table names. -/
def handleShowTables {E : Type} (eng : SqlEngine E) (e : E) (r : Registry) (conn : Conn)
    (seq : Nat) : Registry × List (List Nat) :=
  let current := conn.currentDatabase.getD []
  if current = [] then (r, [buildErrPacket seq "No database selected".toList])
  else
    let r1 := refreshDatabaseMetadata eng e r current
    let entry := (alookup r1.databases current).getD
      { name := current, sanitized := [], file := [], tables := [] }
    let rows := entry.tables.map (fun p => [Cell.text p.1])
    (r1, sendResultSet seq conn [("Tables_in_".toList ++ current)] rows
      current "tables".toList false)

/-- `handleDescribe` (index.js:580-594). -/
def handleDescribe {E : Type} (eng : SqlEngine E) (e : E) (r : Registry) (conn : Conn)
    (tableName : List Char) (seq : Nat) : Registry × List (List Nat) :=
  let current := conn.currentDatabase.getD []
  if current = [] then (r, [buildErrPacket seq "No database selected".toList])
  else
    let r1 := refreshDatabaseMetadata eng e r current
    let entry := (alookup r1.databases current).getD
      { name := current, sanitized := [], file := [], tables := [] }
    match alookup entry.tables tableName with
    | none =>
      (r1, [buildErrPacket seq
        ("Unknown table '".toList ++ tableName ++ "'".toList)])
    | some tableMeta =>
      let rows := tableMeta.columns.map (fun c => [Cell.text c])
      (r1, sendResultSet seq conn ["Field".toList] rows current tableName false)

/-- `handleUseDatabase` (index.js:720-727). -/
def handleUseDatabase {E : Type} (eng : SqlEngine E) (e : E) (r : Registry) (conn : Conn)
    (databaseName : List Char) (seq : Nat) : Registry × Conn × List (List Nat) :=
  if databaseName = [] then
    (r, conn, [buildErrPacket seq "Database name is required".toList])
  else
    let conn1 := { conn with currentDatabase := some databaseName }
    let r1 := refreshDatabaseMetadata eng e r databaseName
    (r1, conn1,
      [buildOkPacket seq 0 0 2 0 ("Using database ".toList ++ databaseName)])

/-- The `/^DESCRIBE\s+([A-Za-z0-9_]+)/i` match (index.js:750) applied to the
trimmed SQL: case-insensitive keyword, then whitespace, then the captured
word-character run from the original (case-preserving) text. -/
def matchDescribe (trimmed : List Char) : Option (List Char) :=
  if toUpperStr (trimmed.take 8) = "DESCRIBE".toList then
    let rest := trimmed.drop 8
    let ws := rest.takeWhile isJsSpace
    if ws = [] then none
    else
      let name := (rest.drop ws.length).takeWhile (fun c => c.isAlphanum ∨ c = '_')
      if name = [] then none else some name
  else none

/-- `executeSql` (index.js:729-784): classify the trimmed SQL and dispatch.
The engine `try`/`catch` surfaces thrown messages as ERR packets. -/
def executeSql {E : Type} (eng : SqlEngine E) (e : E) (r : Registry) (conn : Conn)
    (sql : List Char) (params : List SqlValue) (binary : Bool) (seq : Nat) :
    E × Registry × Conn × List (List Nat) :=
  let trimmed := jsTrim sql
  if trimmed = [] then (e, r, conn, [buildOkPacket seq 0 0 2 0 []])
  else
    let upper := toUpperStr trimmed
    if "USE ".toList.isPrefixOf upper then
      let dbName := jsTrim (stripOneSemi (trimmed.drop 4))
      let p := handleUseDatabase eng e r conn dbName seq
      (e, p.1, p.2.1, p.2.2)
    else if upper = "SHOW DATABASES".toList then
      (e, r, conn, handleShowDatabases seq conn r)
    else if upper = "SHOW TABLES".toList then
      let p := handleShowTables eng e r conn seq
      (e, p.1, conn, p.2)
    else
      match matchDescribe trimmed with
      | some tableName =>
        let p := handleDescribe eng e r conn tableName seq
        (e, p.1, conn, p.2)
      | none =>
        let targetDatabase := jsOrStr (conn.currentDatabase.getD []) "default".toList
        let r1 := (getDatabaseEntry r targetDatabase).1
        if "SELECT".toList.isPrefixOf upper then
          match runSelectQuery eng e r1 targetDatabase trimmed params with
          | (r2, .ok (cols, rows)) =>
            (e, r2, conn, sendResultSet seq conn cols rows [] [] binary)
          | (r2, .error msg) => (e, r2, conn, [buildErrPacket seq msg])
        else if "CREATE DATABASE".toList.isPrefixOf upper then
          let name := jsTrim (stripOneSemi (trimmed.drop 15))
          let r2 := refreshDatabaseMetadata eng e r1 name
          (e, r2, conn,
            [buildOkPacket seq 0 0 2 0
              ("Database ".toList ++ name ++ " created".toList)])
        else if "CREATE".toList.isPrefixOf upper ∨ "INSERT".toList.isPrefixOf upper ∨
            "UPDATE".toList.isPrefixOf upper ∨ "DELETE".toList.isPrefixOf upper then
          match runNonSelectQuery eng e r1 targetDatabase trimmed params with
          | (e2, r2, .ok affectedRows) =>
            (e2, r2, conn, [buildOkPacket seq affectedRows 0 2 0 []])
          | (e2, r2, .error msg) => (e2, r2, conn, [buildErrPacket seq msg])
        else (e, r1, conn, [buildErrPacket seq "Unsupported query".toList])

/-! ## Prepared statements (index.js:790-945) -/

/-- `handlePreparedStatementPrepare` (index.js:790-870): allocate the next
per-connection statement id, count placeholders, pre-resolve columns for a
parameterless SELECT (best effort), store the statement, and emit the
prepare-OK packet followed by parameter/column definition blocks. -/
def handlePreparedStatementPrepare {E : Type} (eng : SqlEngine E) (e : E) (r : Registry)
    (conn : Conn) (sql : List Char) (seq : Nat) : Registry × Conn × List (List Nat) :=
  let trimmed := jsTrim sql
  if trimmed = [] then (r, conn, [buildErrPacket seq "Empty statement".toList])
  else
    let statementId := conn.nextStatementId
    let paramCount := countStatementParameters trimmed
    let targetDatabase := jsOrStr (conn.currentDatabase.getD []) "default".toList
    let resolved :=
      if paramCount = 0 ∧ "SELECT".toList.isPrefixOf (toUpperStr trimmed) then
        match runSelectQuery eng e r targetDatabase trimmed [] with
        | (rq, .ok (cols, _)) => (rq, cols)
        | (rq, .error _) => (rq, ([] : List (List Char)))
      else (r, [])
    let r1 := resolved.1
    let colNames := resolved.2
    let numColumns := colNames.length
    let statement : PreparedStatement :=
      { id := statementId, sql := trimmed, paramCount := paramCount,
        paramTypes := List.replicate paramCount none, columnNames := colNames }
    let conn1 := { conn with
      nextStatementId := conn.nextStatementId + 1,
      preparedStatements := aset conn.preparedStatements statementId statement }
    let schema := conn.currentDatabase.getD []
    let prepOk := buildStmtPrepareOkPacket seq statementId numColumns paramCount 0
    let paramDefs :=
      if 0 < paramCount then
        columnPackets schema [] (seq + 1)
          ((List.range paramCount).map (fun i => "param".toList ++ natToString (i + 1))) ++
          [buildEofPacket (seq + 1 + paramCount)]
      else []
    let colStart := seq + 1 + (if 0 < paramCount then paramCount + 1 else 0)
    let colDefs :=
      if 0 < numColumns then
        columnPackets schema [] colStart colNames ++
          [buildEofPacket (colStart + numColumns)]
      else []
    (r1, conn1, prepOk :: (paramDefs ++ colDefs))

/-- The parameter-decoding loop of `handlePreparedStatementExecute`
(index.js:917-930): consult the null bitmap, decode each non-null value at
the running offset via `parseBinaryParameterValue`. -/
def decodeParamsAux (payload nullBitmap : List Nat)
    (paramTypes : List (Option (Option Nat × Bool))) :
    Nat → Nat → Nat → Except (List Char) (List SqlValue)
  | _, 0, _ => .ok []
  | index, remaining + 1, offset =>
    let bitmapByte := (nullBitmap.get? (index / 8)).getD 0
    if bitmapByte.testBit (index % 8) then
      (decodeParamsAux payload nullBitmap paramTypes (index + 1) remaining offset).map
        (fun vs => .null :: vs)
    else
      let typeInfo :=
        match paramTypes.get? index with
        | some (some ti) => ti
        | _ => (some 0xfd, false)
      match parseBinaryParameterValue payload offset typeInfo.1 typeInfo.2 with
      | .error msg => .error msg
      | .ok (v, consumed) =>
        (decodeParamsAux payload nullBitmap paramTypes (index + 1) remaining
          (offset + consumed)).map (fun vs => v :: vs)

/-- `handlePreparedStatementExecute` (index.js:872-937). `payload` is the
whole command packet (command byte included), as in the source. -/
def handlePreparedStatementExecute {E : Type} (eng : SqlEngine E) (e : E) (r : Registry)
    (conn : Conn) (payload : List Nat) (seq : Nat) :
    E × Registry × Conn × List (List Nat) :=
  if payload.length < 5 then
    (e, r, conn, [buildErrPacket seq "Malformed execute command".toList])
  else
    let statementId := leValue ((payload.drop 1).take 4)
    match alookup conn.preparedStatements statementId with
    | none =>
      (e, r, conn,
        [buildErrPacket seq ("Unknown statement ".toList ++ natToString statementId)])
    | some statement =>
      let paramCount := statement.paramCount
      if paramCount = 0 then executeSql eng e r conn statement.sql [] true seq
      else
        let nullBitmapLength := (paramCount + 7) / 8
        let nullBitmap := (payload.drop 10).take nullBitmapLength
        let off1 := 10 + nullBitmapLength
        let newParamsBoundFlag := (payload.get? off1).getD 0
        let off2 := off1 + 1
        let paramTypes :=
          if newParamsBoundFlag ≠ 0 then
            (List.range paramCount).map (fun i =>
              some (payload.get? (off2 + 2 * i),
                ((payload.get? (off2 + 2 * i + 1)).getD 0).testBit 7))
          else if statement.paramTypes.length ≠ paramCount ∨
              statement.paramTypes.any
                (fun entry => entry.isNone ∨ (entry.getD (none, false)).1.isNone) then
            List.replicate paramCount (some (some 0xfd, false))
          else statement.paramTypes
        let off3 := off2 + (if newParamsBoundFlag ≠ 0 then 2 * paramCount else 0)
        let statement1 := { statement with paramTypes := paramTypes }
        let conn1 := { conn with
          preparedStatements := aset conn.preparedStatements statementId statement1 }
        match decodeParamsAux payload nullBitmap paramTypes 0 paramCount off3 with
        | .error msg => (e, r, conn1, [buildErrPacket seq msg])
        | .ok values => executeSql eng e r conn1 statement.sql values true seq

/-- `handlePreparedStatementClose` (index.js:939-945): fire-and-forget
removal; too-short payloads are ignored. -/
def handlePreparedStatementClose (conn : Conn) (payload : List Nat) : Conn :=
  if payload.length < 5 then conn
  else
    { conn with
      preparedStatements :=
        adelete conn.preparedStatements (leValue ((payload.drop 1).take 4)) }

/-! ## Command dispatch (index.js:991-1035) -/

/-- What the handler did to the socket. -/
inductive SocketAction where
  | keepOpen
  | endSocket
deriving DecidableEq

/-- Lowercase hex digit. -/
def hexDigit (n : Nat) : Char :=
  if n < 10 then Char.ofNat (48 + n) else Char.ofNat (87 + n)

/-- Fueled hex rendering helper. -/
def hexStringAux : Nat → Nat → List Char
  | 0, _ => []
  | fuel + 1, n => if n = 0 then [] else hexStringAux fuel (n / 16) ++ [hexDigit (n % 16)]

/-- JS `n.toString(16)` for a nonnegative integer. -/
def hexString (n : Nat) : List Char := if n = 0 then ['0'] else hexStringAux 16 n

/-- `handleCommand` (index.js:991-1035). An empty ready-state payload returns
immediately: no reply, no state change. Every reply-producing branch passes
the literal sequence id 1 to its builder, independent of the incoming
`sequenceId`. -/
def handleCommand {E : Type} (eng : SqlEngine E) (e : E) (r : Registry) (conn : Conn)
    (payload : List Nat) (sequenceId : Nat) :
    E × Registry × Conn × List (List Nat) × SocketAction :=
  match payload with
  | [] => (e, r, conn, [], .keepOpen)
  | command :: rest =>
    let sqlString := decodeUtf8 rest
    if command = 0x01 then (e, r, conn, [], .endSocket)
    else if command = 0x02 then
      let r0 := { r with queryCount := r.queryCount + 1 }
      let p := handleUseDatabase eng e r0 conn sqlString 1
      (e, p.1, p.2.1, p.2.2, .keepOpen)
    else if command = 0x03 then
      let r0 := { r with queryCount := r.queryCount + 1 }
      let p := executeSql eng e r0 conn sqlString [] false 1
      (p.1, p.2.1, p.2.2.1, p.2.2.2, .keepOpen)
    else if command = 0x16 then
      let p := handlePreparedStatementPrepare eng e r conn sqlString 1
      (e, p.1, p.2.1, p.2.2, .keepOpen)
    else if command = 0x17 then
      let r0 := { r with queryCount := r.queryCount + 1 }
      let p := handlePreparedStatementExecute eng e r0 conn payload 1
      (p.1, p.2.1, p.2.2.1, p.2.2.2, .keepOpen)
    else if command = 0x19 then
      (e, r, handlePreparedStatementClose conn payload, [], .keepOpen)
    else if command = 0x0e then
      (e, r, conn, [buildOkPacket 1 0 0 2 0 "Pong".toList], .keepOpen)
    else
      (e, r, conn,
        [buildErrPacket 1
          ("Command 0x".toList ++ hexString command ++ " not supported".toList)],
        .keepOpen)

/-! ## Handshake response (index.js:661-718, 974-978) -/

/-- First index `≥ start` holding a zero byte (`buffer.indexOf(0x00, start)`;
a `NaN` offset coerces to 0 at the call sites below). -/
def indexOfZero (b : List Nat) (start : Nat) : Option Nat :=
  ((b.drop start).findIdx? (fun x => x = 0)).map (fun i => i + start)

/-- `parseHandshakeResponse` (index.js:661-718), returning the username and
the (truthy) database name. `.error` models the uncaught `RangeError` thrown
by `readUInt32LE`/`readUInt16LE` on a too-short payload. An out-of-bounds
single-byte read in the secure-connection branch yields `undefined` and makes
the running offset `NaN` (modelled as `none`), which later coerces to 0 in
`indexOf`/`subarray`. The trailing auth-plugin-name scan only moves the
then-unused offset and is omitted. -/
def parseHandshakeResponse (payload : List Nat) :
    Except (List Char) (List Char × Option (List Char)) := do
  let clientCapabilities ←
    match readUIntLEAt payload 0 4 with
    | some v => Except.ok v
    | none => Except.error rangeErr
  let p1 :=
    match indexOfZero payload 32 with
    | some e1 => (decodeUtf8 ((payload.drop 32).take (e1 - 32)), e1 + 1)
    | none => (decodeUtf8 (payload.drop 32), payload.length)
  let username := p1.1
  let off1 := p1.2
  let afterAuth ←
    if clientCapabilities.testBit 21 then
      match readLengthEncodedInteger payload off1 with
      | none => Except.error rangeErr
      | some (lenOpt, consumed) =>
        Except.ok (some (off1 + consumed + lenOpt.getD 0) : Option Nat)
    else if clientCapabilities.testBit 15 then
      match payload.get? off1 with
      | some len => Except.ok (some (off1 + 1 + len) : Option Nat)
      | none => Except.ok (none : Option Nat)
    else
      match indexOfZero payload off1 with
      | some e2 => Except.ok (some (e2 + 1) : Option Nat)
      | none => Except.ok (some payload.length : Option Nat)
  let databaseName :=
    if clientCapabilities.testBit 3 then
      match indexOfZero payload (afterAuth.getD 0) with
      | some e3 => some (decodeUtf8 ((payload.drop (afterAuth.getD 0)).take (e3 - afterAuth.getD 0)))
      | none => none
    else none
  let dbOpt :=
    match databaseName with
    | some d => if d = [] then none else some d
    | none => none
  return (username, dbOpt)

/-- The handshake branch of the data handler (index.js:974-978): parse the
handshake response — there is no try/catch, so a thrown range error escapes
the listener (no reply is written and the connection state is unchanged; in
Node this surfaces as an uncaught exception, not a per-connection close) —
then reply OK "Welcome" at the incoming sequence id + 1 and become ready. -/
def handshakePacketStep {E : Type} (eng : SqlEngine E) (e : E) (r : Registry) (conn : Conn)
    (payload : List Nat) (sequenceId : Nat) :
    Except (List Char) (Registry × Conn × List (List Nat)) := do
  let parsed ← parseHandshakeResponse payload
  let conn1 := { conn with
    username := parsed.1,
    currentDatabase :=
      match parsed.2 with
      | some d => some d
      | none => conn.currentDatabase,
    connState := .ready }
  let r1 :=
    match parsed.2 with
    | some d => refreshDatabaseMetadata eng e r d
    | none => r
  return (r1, conn1, [buildOkPacket (sequenceId + 1) 0 0 2 0 "Welcome".toList])

/-! ## Multi-connection view (index.js:947-989, 1037-1047) -/

/-- The whole server: engine state, shared registry, and the per-socket
connection objects (each `data` handler closes over exactly one of them). -/
structure Server (E : Type) where
  engine : E
  registry : Registry
  conns : List Conn

/-- Dispatch one ready-state command packet to connection `i`: only that
connection's closure state can change, alongside the shared registry. -/
def serverHandleCommand {E : Type} (eng : SqlEngine E) (s : Server E) (i : Nat)
    (payload : List Nat) (sequenceId : Nat) : Server E × List (List Nat) × SocketAction :=
  match s.conns.get? i with
  | none => (s, [], .keepOpen)
  | some c =>
    let p := handleCommand eng s.engine s.registry c payload sequenceId
    ({ engine := p.1, registry := p.2.1, conns := s.conns.set i p.2.2.1 },
      p.2.2.2.1, p.2.2.2.2)

/-- Iterate `handlePreparedStatementPrepare` over a list of statement texts
(successive STMT_PREPARE commands on one connection). -/
def prepareMany {E : Type} (eng : SqlEngine E) (e : E) :
    Registry → Conn → List (List Char) → Registry × Conn
  | r, conn, [] => (r, conn)
  | r, conn, sql :: rest =>
    let p := handlePreparedStatementPrepare eng e r conn sql 1
    prepareMany eng e p.1 p.2.1 rest

/-- A trivial concrete engine used by closed witness theorems. -/
def unitEngine : SqlEngine Unit :=
  { meta := fun _ _ => []
    runStmt := fun _ _ _ _ => .ok ((), 1)
    queryStmt := fun _ _ _ _ => .ok ([], []) }

/-- A concrete engine whose every database currently holds one table `t`
with one column `c` and five rows (for the cache-mutation counterexample). -/
def tableEngine : SqlEngine Unit :=
  { meta := fun _ _ => [("t".toList, { columns := ["c".toList], rowCount := 5 })]
    runStmt := fun _ _ _ _ => .ok ((), 1)
    queryStmt := fun _ _ _ _ => .ok ([], []) }

/-- A registry holding one database `d` with an empty (stale) table cache. -/
def staleRegistry : Registry :=
  { queryCount := 0,
    databases := [("d".toList,
      { name := "d".toList, sanitized := "d".toList,
        file := dbFilePath "d".toList, tables := [] })] }

/-- A ready connection whose current database is `d`. -/
def connOnD : Conn := { freshConn with currentDatabase := some "d".toList }

end MysqlSim

namespace MysqlSim

/-! ## Theorems: byte primitives -/

@[simp] theorem leBytes_length (k : Nat) : ∀ v : Nat, (leBytes k v).length = k := by
  induction k with
  | zero => intro v; rfl
  | succ k ih => intro v; simp [leBytes, ih]

theorem leValue_leBytes_two (v : Nat) (h : v < 2 ^ 16) : leValue (leBytes 2 v) = v := by
  show leValue (v % 256 :: v / 256 % 256 :: leBytes 0 (v / 256 / 256)) = v
  simp only [leBytes, leValue]
  omega

theorem leValue_leBytes_three (v : Nat) (h : v < 2 ^ 24) : leValue (leBytes 3 v) = v := by
  show leValue (v % 256 :: v / 256 % 256 :: v / 256 / 256 % 256 :: leBytes 0 _) = v
  simp only [leBytes, leValue]
  omega

theorem leValue_leBytes_eight (v : Nat) (h : v < 2 ^ 64) : leValue (leBytes 8 v) = v := by
  show leValue (v % 256 :: v / 256 % 256 :: v / 256 / 256 % 256 ::
    v / 256 / 256 / 256 % 256 :: v / 256 / 256 / 256 / 256 % 256 ::
    v / 256 / 256 / 256 / 256 / 256 % 256 :: v / 256 / 256 / 256 / 256 / 256 / 256 % 256 ::
    v / 256 / 256 / 256 / 256 / 256 / 256 / 256 % 256 :: leBytes 0 _) = v
  simp only [leBytes, leValue]
  omega

theorem jsNumberNat_eq_of_lt (v : Nat) (h : v < 2 ^ 53) : jsNumberNat v = v := by
  unfold jsNumberNat
  rw [if_pos h]

/-! ## Theorems: C1 packet framing -/

/-- C1: framing round-trips. For every payload of length below `2 ^ 24` and
sequence id below 256, framing the buffer built by `buildPacket` yields back
exactly that payload and sequence id with an empty remainder; and whenever a
buffer holds fewer than `4 + declared length` bytes, `tryFramePacket`
consumes nothing (the caller retains the buffer unchanged). -/
theorem framing_roundtrip (payload : List Nat) (seq : Nat)
    (hlen : payload.length < 2 ^ 24) (hseq : seq < 256) :
    tryFramePacket (buildPacket seq payload) = some (payload, seq, []) ∧
    (∀ buffer : List Nat, buffer.length < 4 + declaredLength buffer →
      tryFramePacket buffer = none) := by
  constructor
  · show tryFramePacket (payload.length % 256 :: payload.length / 256 % 256 ::
      payload.length / 256 / 256 % 256 :: leBytes 0 _ ++ seq % 256 :: payload)
      = some (payload, seq, [])
    simp only [leBytes, List.nil_append, List.cons_append, tryFramePacket]
    have hpk : payload.length % 256 + 256 * (payload.length / 256 % 256 +
        256 * (payload.length / 256 / 256 % 256)) = payload.length := by omega
    rw [hpk]
    simp [Nat.mod_eq_of_lt hseq]
  · intro buffer hshort
    match buffer with
    | [] => rfl
    | [_] => rfl
    | [_, _] => rfl
    | [_, _, _] => rfl
    | b0 :: b1 :: b2 :: b3 :: rest =>
      have hd : declaredLength (b0 :: b1 :: b2 :: b3 :: rest)
          = b0 + 256 * (b1 + 256 * b2) := by
        simp [declaredLength, leValue]
      rw [hd] at hshort
      simp only [List.length_cons] at hshort
      simp only [tryFramePacket]
      rw [if_pos (by omega)]

/-- Witness for C1 at a concrete packet. -/
theorem framing_roundtrip_witness :
    tryFramePacket (buildPacket 5 [7, 8]) = some ([7, 8], 5, []) :=
  (framing_roundtrip [7, 8] 5 (by norm_num) (by norm_num)).1

/-! ## Theorems: C2 length-encoded integer codec -/

/-- C2: the length-encoded integer codec round-trips. For every value that is
an exact JavaScript integer (below `2 ^ 53`, which covers the boundaries
0xFA/0xFB, 0xFFFF/0x10000, 0xFFFFFF/0x1000000) and any trailing bytes,
decoding the encoding returns the original value and consumes exactly the
encoded length. -/
theorem lenenc_integer_roundtrip (value : Nat) (extra : List Nat)
    (h : value < 2 ^ 53) :
    readLengthEncodedInteger (writeLengthEncodedInteger value ++ extra) 0
      = some (some value, (writeLengthEncodedInteger value).length) := by
  by_cases h1 : value < 0xfb
  · simp [writeLengthEncodedInteger, readLengthEncodedInteger, h1]
  · by_cases h2 : value < 0x10000
    · have henc : writeLengthEncodedInteger value = 0xfc :: leBytes 2 value := by
        simp [writeLengthEncodedInteger, h1, h2]
      rw [henc]
      have hread : readUIntLEAt (0xfc :: (leBytes 2 value ++ extra)) 1 2
          = some value := by
        simp only [readUIntLEAt, List.length_cons, List.length_append,
          leBytes_length, List.drop_succ_cons, List.drop_zero]
        rw [if_pos (by omega), List.take_left' (by simp), leValue_leBytes_two value h2]
      simp only [readLengthEncodedInteger, List.cons_append, List.get?]
      norm_num [hread, leBytes_length]
    · by_cases h3 : value < 0x1000000
      · have henc : writeLengthEncodedInteger value = 0xfd :: leBytes 3 value := by
          simp [writeLengthEncodedInteger, h1, h2, h3]
        rw [henc]
        have hread : readUIntLEAt (0xfd :: (leBytes 3 value ++ extra)) 1 3
            = some value := by
          simp only [readUIntLEAt, List.length_cons, List.length_append,
            leBytes_length, List.drop_succ_cons, List.drop_zero]
          rw [if_pos (by omega), List.take_left' (by simp), leValue_leBytes_three value h3]
        simp only [readLengthEncodedInteger, List.cons_append, List.get?]
        norm_num [hread, leBytes_length]
      · have henc : writeLengthEncodedInteger value = 0xfe :: leBytes 8 value := by
          simp [writeLengthEncodedInteger, h1, h2, h3]
        rw [henc]
        have hread : readUIntLEAt (0xfe :: (leBytes 8 value ++ extra)) 1 8
            = some value := by
          simp only [readUIntLEAt, List.length_cons, List.length_append,
            leBytes_length, List.drop_succ_cons, List.drop_zero]
          rw [if_pos (by omega), List.take_left' (by simp),
            leValue_leBytes_eight value (by omega)]
        simp only [readLengthEncodedInteger, List.cons_append, List.get?]
        norm_num [hread, leBytes_length, jsNumberNat_eq_of_lt value h]

/-- Witness for C2 at the boundary value 0x10000 with a trailing byte. -/
theorem lenenc_integer_roundtrip_witness :
    readLengthEncodedInteger (writeLengthEncodedInteger 0x10000 ++ [9]) 0
      = some (some 0x10000, (writeLengthEncodedInteger 0x10000).length) :=
  lenenc_integer_roundtrip 0x10000 [9] (by norm_num)

/-! ## Theorems: C5 placeholder counting -/

theorem countParamsLoop_eq_quoteAware (chars : List Char) : ∀ (prev : Option Char),
    countParamsLoop chars prev false false false = quoteAwareCount chars prev .plain ∧
    countParamsLoop chars prev true false false = quoteAwareCount chars prev .single ∧
    countParamsLoop chars prev false true false = quoteAwareCount chars prev .double ∧
    countParamsLoop chars prev false false true = quoteAwareCount chars prev .backtick := by
  induction chars with
  | nil => intro prev; simp [countParamsLoop, quoteAwareCount]
  | cons c rest ih =>
    intro prev
    refine ⟨?_, ?_, ?_, ?_⟩ <;>
      simp only [countParamsLoop, quoteAwareCount] <;>
      split_ifs with h1 h2 h3 h4 <;>
      simp_all [(ih (some c)).1, (ih (some c)).2.1, (ih (some c)).2.2.1, (ih (some c)).2.2.2]

/-- C5: the prepare-time parameter counter returns, for every SQL string, the
number of placeholder question marks outside single-, double-, and
backtick-quoted regions (quote delimiters preceded by a backslash do not
toggle a region); in particular the claim's example with one quoted and one
unquoted placeholder yields 1, not 2. -/
theorem placeholder_count_correct :
    (∀ sql : List Char, countStatementParameters sql = quoteAwareCount sql none .plain) ∧
    countStatementParameters "SELECT * FROM t WHERE a = ? AND b = '?'".toList = 1 := by
  constructor
  · intro sql
    exact (countParamsLoop_eq_quoteAware sql none).1
  · decide

/-! ## Theorems: C4 LONGLONG parameter decoding -/

/-- C4 is a code bug: on the failing input `0x7fffffffffffffff` (8 bytes LE,
signed), the decoder returns `Number(value)` which rounds to the nearest
IEEE-754 double, `2 ^ 63`, instead of the exact 64-bit integer
`2 ^ 63 - 1` demanded by the spec. -/
theorem longlong_decode_not_exact :
    parseBinaryParameterValue [0xff, 0xff, 0xff, 0xff, 0xff, 0xff, 0xff, 0x7f] 0
      (some 0x08) false = .ok (.int 9223372036854775808, 8) ∧
    (9223372036854775808 : Int) ≠ 9223372036854775807 := by
  constructor
  · rfl
  · decide

/-! ## Association-list lemmas -/

theorem alookup_append_right {α β : Type} [DecidableEq α] {l : List (α × β)} {k : α}
    (m : List (α × β)) (h : alookup l k = none) : alookup (l ++ m) k = alookup m k := by
  induction l with
  | nil => rfl
  | cons a t ih =>
    obtain ⟨k0, v0⟩ := a
    by_cases hk : k0 = k
    · simp [alookup, hk] at h
    · simp only [alookup, List.cons_append, if_neg hk] at h ⊢
      exact ih h

theorem alookup_mapset {α β : Type} [DecidableEq α] {l : List (α × β)} {k : α} {v : β}
    (h : (alookup l k).isSome) :
    alookup (l.map (fun p => if p.1 = k then (k, v) else p)) k = some v := by
  induction l with
  | nil => simp [alookup] at h
  | cons a t ih =>
    obtain ⟨k0, v0⟩ := a
    by_cases hk : k0 = k
    · subst hk
      have hhead : (if (k0, v0).1 = k0 then (k0, v) else (k0, v0)) = (k0, v) := if_pos rfl
      rw [List.map_cons, hhead]
      simp [alookup]
    · have hhead : (if (k0, v0).1 = k then (k, v) else (k0, v0)) = (k0, v0) := if_neg hk
      simp only [alookup, if_neg hk] at h
      rw [List.map_cons, hhead]
      simp only [alookup, if_neg hk]
      exact ih h

theorem alookup_aset_self {α β : Type} [DecidableEq α] (l : List (α × β)) (k : α) (v : β) :
    alookup (aset l k v) k = some v := by
  unfold aset
  by_cases h : (alookup l k).isSome
  · rw [if_pos h]
    exact alookup_mapset h
  · rw [if_neg h]
    rw [alookup_append_right _ (Option.not_isSome_iff_eq_none.mp h)]
    simp [alookup]

theorem alookup_refresh {E : Type} (eng : SqlEngine E) (e : E) (r : Registry)
    (name : List Char) :
    alookup (refreshDatabaseMetadata eng e r name).databases name
      = some { (getDatabaseEntry r name).2 with tables := eng.meta e name } := by
  unfold refreshDatabaseMetadata
  exact alookup_aset_self _ _ _

/-! ## Theorems: C10 empty ready-state payload -/

/-- C10: a ready-state command packet with an empty payload produces no reply
at all and leaves the engine state, the registry (including the current
database and query count), the connection (including its prepared-statement
registry), and the socket untouched. -/
theorem empty_payload_no_reply {E : Type} (eng : SqlEngine E) (e : E) (r : Registry)
    (conn : Conn) (sequenceId : Nat) :
    handleCommand eng e r conn [] sequenceId = (e, r, conn, [], .keepOpen) := rfl

/-! ## Theorems: C9 database name sanitization -/

/-- C9 counterexample: `sanitizeDatabaseName` REPLACES the disallowed
character of "my-db" with an underscore, while the claim's stripping
(`strippedSpecName`, modelled from the spec words) removes it; the two
results differ, so the backing file is not named after the stripped name. -/
theorem sanitize_replaces_not_strips :
    sanitizeDatabaseName "my-db".toList = "my_db".toList ∧
    strippedSpecName "my-db".toList = "mydb".toList ∧
    ("my_db".toList : List Char) ≠ "mydb".toList := by
  refine ⟨by decide, by decide, by decide⟩

/-- C9 amended: the backing file name is the sanitized logical name (with
non-alphanumeric, non-underscore characters REPLACED by underscores) plus
".sqlite" under the fixed data directory, the sanitized name contains only
word characters, and each logical name maps to exactly one registry entry:
re-referencing an existing name returns the same entry and registry. -/
theorem database_entry_sanitized_and_unique (r : Registry) (name : List Char) :
    getDatabaseEntry (getDatabaseEntry r name).1 name = getDatabaseEntry r name ∧
    (alookup r.databases name = none →
      (getDatabaseEntry r name).2.sanitized = sanitizeDatabaseName name ∧
      (getDatabaseEntry r name).2.file = dbFilePath (sanitizeDatabaseName name)) ∧
    (∀ c ∈ sanitizeDatabaseName name, c.isAlphanum ∨ c = '_') := by
  refine ⟨?_, ?_, ?_⟩
  · cases h : alookup r.databases name with
    | some entry => simp [getDatabaseEntry, h]
    | none =>
      simp only [getDatabaseEntry, h]
      rw [alookup_append_right _ h]
      simp [alookup]
  · intro h
    simp [getDatabaseEntry, h]
  · intro c hc
    have hdef : ∀ x ∈ "default".toList, x.isAlphanum ∨ x = '_' := by decide
    simp only [sanitizeDatabaseName] at hc
    generalize jsTrim (if name = [] then "default".toList else name) = t at hc
    by_cases hempty : t.map (fun c => if c.isAlphanum ∨ c = '_' then c else '_') = []
    · rw [if_pos hempty] at hc
      exact hdef c hc
    · rw [if_neg hempty] at hc
      rcases List.mem_map.1 hc with ⟨a, _, ha⟩
      by_cases hw : a.isAlphanum ∨ a = '_'
      · rw [if_pos hw] at ha
        exact ha ▸ hw
      · rw [if_neg hw] at ha
        right
        exact ha.symm

/-- C9 witness: a fresh logical name gets a sanitized file and re-reference
returns the same entry. -/
theorem database_entry_sanitized_and_unique_witness :
    (getDatabaseEntry emptyRegistry "my-db".toList).2.file
        = dbFilePath (sanitizeDatabaseName "my-db".toList) ∧
    getDatabaseEntry (getDatabaseEntry emptyRegistry "my-db".toList).1 "my-db".toList
        = getDatabaseEntry emptyRegistry "my-db".toList :=
  ⟨((database_entry_sanitized_and_unique emptyRegistry "my-db".toList).2.1 rfl).2,
    (database_entry_sanitized_and_unique emptyRegistry "my-db".toList).1⟩

/-! ## Theorems: C7 metadata cache -/

/-- C7 counterexample: the non-SELECT execution path is NOT the sole mutation
point of the cached table information — a `SHOW TABLES` command (a pure read)
also rebuilds the cache: starting from a stale empty cache for database `d`,
`handleShowTables` leaves the cache holding the engine's current table `t`. -/
theorem metadata_cache_mutated_by_show_tables :
    (alookup staleRegistry.databases "d".toList).map DbEntry.tables = some [] ∧
    (alookup (handleShowTables tableEngine () staleRegistry connOnD 1).1.databases
        "d".toList).map DbEntry.tables
      = some [("t".toList, { columns := ["c".toList], rowCount := 5 })] ∧
    ([] : List (List Char × TableMeta))
      ≠ [("t".toList, { columns := ["c".toList], rowCount := 5 })] := by
  refine ⟨by decide, by decide, by decide⟩

/-- C7 amended: after every successfully executed non-SELECT statement the
target database's cached table metadata equals the engine's post-statement
state before the OK reply is produced (`runNonSelectQuery` refreshes before
returning the affected-row count that `executeSql` packages into OK), and the
`/metrics`-style snapshot reports the same refreshed column/row counts; the
cache is, however, also rebuilt by SHOW TABLES/DESCRIBE/USE/handshake paths,
so this path is not the sole mutation point. -/
theorem metadata_refreshed_on_mutation {E : Type} (eng : SqlEngine E) (e : E)
    (r : Registry) (name sql : List Char) (params : List SqlValue) (e2 : E)
    (r2 : Registry) (n : Nat)
    (h : runNonSelectQuery eng e r name sql params = (e2, r2, .ok n)) :
    (∃ entry, alookup r2.databases name = some entry ∧
      entry.tables = eng.meta e2 name) ∧
    metricsTables r2 name
      = some ((eng.meta e2 name).map (fun p => (p.1, p.2.columns.length, p.2.rowCount))) := by
  unfold runNonSelectQuery at h
  cases hrun : eng.runStmt e name (normalizeSql sql) params with
  | error msg =>
    rw [hrun] at h
    exact absurd (congrArg (fun t => t.2.2) h) (by simp)
  | ok p =>
    obtain ⟨e3, changes⟩ := p
    rw [hrun] at h
    have h1 : e3 = e2 := congrArg (fun t => t.1) h
    have h2 : refreshDatabaseMetadata eng e3 (getDatabaseEntry r name).1 name = r2 :=
      congrArg (fun t => t.2.1) h
    subst h1
    subst h2
    refine ⟨⟨_, alookup_refresh _ _ _ _, rfl⟩, ?_⟩
    unfold metricsTables
    rw [alookup_refresh]
    rfl

/-- C7 witness at a concrete engine, registry, and statement. -/
theorem metadata_refreshed_on_mutation_witness :
    ∃ entry,
      alookup (runNonSelectQuery unitEngine () emptyRegistry "d".toList
          "INSERT INTO t VALUES (1)".toList []).2.1.databases "d".toList = some entry ∧
      entry.tables = unitEngine.meta () "d".toList :=
  (metadata_refreshed_on_mutation unitEngine () emptyRegistry "d".toList
    "INSERT INTO t VALUES (1)".toList [] _ _ _ rfl).1

/-! ## Theorems: C6 malformed handshake response -/

/-- C6 counterexample: a handshake-response payload whose field offsets all
run past the buffer (here 4 zero bytes — shorter than the fixed 32-byte
header) is NOT fatal to the connection: the server replies OK ("Welcome") and
moves the connection to ready, rather than closing the socket without a
reply. -/
theorem handshake_short_payload_gets_ok :
    (handshakePacketStep unitEngine () emptyRegistry
        { freshConn with connState := .handshake } [0, 0, 0, 0] 1).toOption.map
        (fun t => (t.2.1.connState, t.2.2))
      = some (.ready, [buildOkPacket 2 0 0 2 0 "Welcome".toList]) := by
  rfl

/-- C6 amended: a handshake-response payload too short for even the initial
4-byte capability read makes `parseHandshakeResponse` throw, and the thrown
error escapes the data handler (there is no handler-level catch): the step
produces no reply and no state change, surfacing as an uncaught exception
rather than a per-connection close; while payloads that survive the initial
read but whose later offsets run past the buffer are accepted with an OK
reply and a transition to ready (concretely witnessed by the 4-byte payload). -/
theorem handshake_malformed_behaviour :
    (∀ payload : List Nat, payload.length < 4 →
      parseHandshakeResponse payload = .error rangeErr ∧
      ∀ (E : Type) (eng : SqlEngine E) (e : E) (r : Registry) (conn : Conn) (seq : Nat),
        handshakePacketStep eng e r conn payload seq = .error rangeErr) ∧
    (handshakePacketStep unitEngine () emptyRegistry
        { freshConn with connState := .handshake } [0, 0, 0, 0] 7).toOption.map
        (fun t => (t.2.1.connState, t.2.2.length))
      = some (.ready, 1) := by
  constructor
  · intro payload hlen
    have hread : readUIntLEAt payload 0 4 = none := by
      simp only [readUIntLEAt]
      rw [if_neg (by omega)]
    constructor
    · unfold parseHandshakeResponse
      rw [hread]
      rfl
    · intro E eng e r conn seq
      unfold handshakePacketStep parseHandshakeResponse
      rw [hread]
      rfl
  · rfl

/-- C6 witness at a 1-byte payload. -/
theorem handshake_malformed_behaviour_witness :
    parseHandshakeResponse [7] = .error rangeErr ∧
    handshakePacketStep unitEngine () emptyRegistry freshConn [7] 3 = .error rangeErr := by
  have h := handshake_malformed_behaviour.1 [7] (by norm_num)
  exact ⟨h.1, h.2 Unit unitEngine () emptyRegistry freshConn 3⟩

/-! ## Theorems: C3 reply sequence ids -/

theorem seqByte_buildPacket (s : Nat) (p : List Nat) :
    seqByte (buildPacket s p) = s % 256 := rfl

theorem seqBytesFrom_succ (s n : Nat) :
    seqBytesFrom s (n + 1) = s % 256 :: seqBytesFrom (s + 1) n := by
  unfold seqBytesFrom
  rw [List.range_succ_eq_map, List.map_cons, List.map_map]
  congr 1
  apply List.map_congr_left
  intro a _
  simp only [Function.comp_apply]
  congr 1
  omega

theorem seqBytesFrom_add (a : Nat) : ∀ (s b : Nat),
    seqBytesFrom s (a + b) = seqBytesFrom s a ++ seqBytesFrom (s + a) b := by
  induction a with
  | zero => intro s b; simp [seqBytesFrom]
  | succ a ih =>
    intro s b
    rw [show a + 1 + b = (a + b) + 1 from by omega, seqBytesFrom_succ, seqBytesFrom_succ,
      ih (s + 1) b]
    simp only [List.cons_append]
    rw [show s + 1 + a = s + (a + 1) from by omega]

theorem columnPackets_seqBytes (schema table : List Char) :
    ∀ (cs : List (List Char)) (s : Nat),
    (columnPackets schema table s cs).map seqByte = seqBytesFrom s cs.length := by
  intro cs
  induction cs with
  | nil => intro s; rfl
  | cons c rest ih =>
    intro s
    simp only [columnPackets, List.map_cons, List.length_cons]
    rw [seqBytesFrom_succ, ih (s + 1)]
    rfl

theorem rowPackets_seqBytes (binary : Bool) (n : Nat) :
    ∀ (rows : List (List Cell)) (s : Nat),
    (rowPackets binary n s rows).map seqByte = seqBytesFrom s rows.length := by
  intro rows
  induction rows with
  | nil => intro s; rfl
  | cons row rest ih =>
    intro s
    simp only [rowPackets, List.map_cons, List.length_cons]
    rw [seqBytesFrom_succ, ih (s + 1)]
    congr 1
    cases binary
    · exact seqByte_buildPacket s _
    · exact seqByte_buildPacket s _

theorem seqByte_buildEofPacket (s : Nat) : seqByte (buildEofPacket s) = s % 256 := rfl

theorem seqBytesFrom_one (x : Nat) : seqBytesFrom x 1 = [x % 256] := rfl

theorem sendResultSet_seqBytes (s : Nat) (conn : Conn) (cols : List (List Char))
    (rows : List (List Cell)) (ms mt : List Char) (b : Bool) :
    (sendResultSet s conn cols rows ms mt b).map seqByte
      = seqBytesFrom s (cols.length + rows.length + 3) := by
  unfold sendResultSet
  simp only [List.map_cons, List.map_append, List.map_nil, columnPackets_seqBytes,
    rowPackets_seqBytes, seqByte_buildPacket, seqByte_buildEofPacket]
  rw [show cols.length + rows.length + 3 = (cols.length + (rows.length + 2)) + 1 from by omega,
    seqBytesFrom_succ, seqBytesFrom_add cols.length (s + 1) (rows.length + 2),
    show rows.length + 2 = rows.length + 1 + 1 from by omega,
    seqBytesFrom_succ (s + 1 + cols.length) (rows.length + 1),
    seqBytesFrom_add rows.length (s + 1 + cols.length + 1) 1,
    seqBytesFrom_one,
    show s + 1 + cols.length + 1 = s + 2 + cols.length from by omega]

theorem headSeqOk_cons (x : List Nat) (rest : List (List Nat)) (s : Nat)
    (hx : seqByte x = s % 256) : headSeqOk (x :: rest) s := by
  intro p hp
  simp only [List.head?_cons, Option.some.injEq] at hp
  exact hp ▸ hx

theorem sendResultSet_headSeq (s : Nat) (conn : Conn) (cols : List (List Char))
    (rows : List (List Cell)) (ms mt : List Char) (b : Bool) :
    headSeqOk (sendResultSet s conn cols rows ms mt b) s :=
  headSeqOk_cons _ _ _ (seqByte_buildPacket s _)

theorem handleUseDatabase_headSeq {E : Type} (eng : SqlEngine E) (e : E) (r : Registry)
    (conn : Conn) (nm : List Char) (seq : Nat) :
    headSeqOk (handleUseDatabase eng e r conn nm seq).2.2 seq := by
  unfold handleUseDatabase
  dsimp only
  split
  · exact headSeqOk_cons _ _ _ (seqByte_buildPacket seq _)
  · exact headSeqOk_cons _ _ _ (seqByte_buildPacket seq _)

theorem handleShowDatabases_headSeq (seq : Nat) (conn : Conn) (r : Registry) :
    headSeqOk (handleShowDatabases seq conn r) seq :=
  sendResultSet_headSeq _ _ _ _ _ _ _

theorem handleShowTables_headSeq {E : Type} (eng : SqlEngine E) (e : E) (r : Registry)
    (conn : Conn) (seq : Nat) :
    headSeqOk (handleShowTables eng e r conn seq).2 seq := by
  unfold handleShowTables
  dsimp only
  split
  · exact headSeqOk_cons _ _ _ (seqByte_buildPacket seq _)
  · exact sendResultSet_headSeq _ _ _ _ _ _ _

theorem handleDescribe_headSeq {E : Type} (eng : SqlEngine E) (e : E) (r : Registry)
    (conn : Conn) (tn : List Char) (seq : Nat) :
    headSeqOk (handleDescribe eng e r conn tn seq).2 seq := by
  unfold handleDescribe
  dsimp only
  split
  · exact headSeqOk_cons _ _ _ (seqByte_buildPacket seq _)
  · split
    · exact headSeqOk_cons _ _ _ (seqByte_buildPacket seq _)
    · exact sendResultSet_headSeq _ _ _ _ _ _ _

theorem executeSql_headSeq {E : Type} (eng : SqlEngine E) (e : E) (r : Registry)
    (conn : Conn) (sql : List Char) (params : List SqlValue) (binary : Bool) (seq : Nat) :
    headSeqOk (executeSql eng e r conn sql params binary seq).2.2.2 seq := by
  unfold executeSql
  dsimp only
  split
  · exact headSeqOk_cons _ _ _ (seqByte_buildPacket seq _)
  · split
    · exact handleUseDatabase_headSeq _ _ _ _ _ _
    · split
      · exact handleShowDatabases_headSeq _ _ _
      · split
        · exact handleShowTables_headSeq _ _ _ _ _
        · split
          · exact handleDescribe_headSeq _ _ _ _ _ _
          · split
            · split
              · exact sendResultSet_headSeq _ _ _ _ _ _ _
              · exact headSeqOk_cons _ _ _ (seqByte_buildPacket seq _)
            · split
              · exact headSeqOk_cons _ _ _ (seqByte_buildPacket seq _)
              · split
                · split
                  · exact headSeqOk_cons _ _ _ (seqByte_buildPacket seq _)
                  · exact headSeqOk_cons _ _ _ (seqByte_buildPacket seq _)
                · exact headSeqOk_cons _ _ _ (seqByte_buildPacket seq _)

theorem prepare_headSeq {E : Type} (eng : SqlEngine E) (e : E) (r : Registry)
    (conn : Conn) (sql : List Char) (seq : Nat) :
    headSeqOk (handlePreparedStatementPrepare eng e r conn sql seq).2.2 seq := by
  unfold handlePreparedStatementPrepare
  dsimp only
  split
  · exact headSeqOk_cons _ _ _ (seqByte_buildPacket seq _)
  · exact headSeqOk_cons _ _ _ (seqByte_buildPacket seq _)

theorem execute_headSeq {E : Type} (eng : SqlEngine E) (e : E) (r : Registry)
    (conn : Conn) (payload : List Nat) (seq : Nat) :
    headSeqOk (handlePreparedStatementExecute eng e r conn payload seq).2.2.2 seq := by
  unfold handlePreparedStatementExecute
  dsimp only
  split
  · exact headSeqOk_cons _ _ _ (seqByte_buildPacket seq _)
  · split
    · exact headSeqOk_cons _ _ _ (seqByte_buildPacket seq _)
    · split
      · exact executeSql_headSeq _ _ _ _ _ _ _ _
      · split
        · exact headSeqOk_cons _ _ _ (seqByte_buildPacket seq _)
        · exact executeSql_headSeq _ _ _ _ _ _ _ _

/-- C3 counterexample: the reply sequence id does not follow the incoming
command packet's sequence id. A PING arriving with sequence id 1 is answered
with a packet whose sequence byte is the hardcoded 1, not 1 + 1 = 2. -/
theorem reply_seq_ignores_incoming :
    (handleCommand unitEngine () emptyRegistry freshConn [0x0e] 1).2.2.2.1
      = [buildOkPacket 1 0 0 2 0 "Pong".toList] ∧
    seqByte (buildOkPacket 1 0 0 2 0 "Pong".toList) = 1 ∧
    (1 : Nat) ≠ (1 + 1) % 256 :=
  ⟨rfl, rfl, by decide⟩

/-- C3 amended: reply packets do carry consecutive sequence ids incrementing
by one per packet (wrapping at 256 in the header byte), but the sequence does
not start from the incoming command packet's sequence id + 1: `handleCommand`
passes the literal 1 to every reply builder, so the first reply packet of
every reply-producing branch has sequence byte 1 regardless of the incoming
sequence id (correct only for the protocol-standard command sequence id 0). -/
theorem reply_sequence_hardcoded :
    (∀ (E : Type) (eng : SqlEngine E) (e : E) (r : Registry) (conn : Conn)
        (payload : List Nat) (sequenceId : Nat) (p : List Nat),
      ((handleCommand eng e r conn payload sequenceId).2.2.2.1).head? = some p →
      seqByte p = 1) ∧
    (∀ (s : Nat) (conn : Conn) (cols : List (List Char)) (rows : List (List Cell))
        (ms mt : List Char) (b : Bool),
      (sendResultSet s conn cols rows ms mt b).map seqByte
        = seqBytesFrom s (cols.length + rows.length + 3)) := by
  constructor
  · intro E eng e r conn payload sequenceId p hp
    have h1 : (1 : Nat) % 256 = 1 := by norm_num
    unfold handleCommand at hp
    dsimp only at hp
    split at hp
    · simp at hp
    · split at hp
      · simp at hp
      · split at hp
        · exact h1 ▸ handleUseDatabase_headSeq eng e _ conn _ 1 p hp
        · split at hp
          · exact h1 ▸ executeSql_headSeq eng e _ conn _ [] false 1 p hp
          · split at hp
            · exact h1 ▸ prepare_headSeq eng e r conn _ 1 p hp
            · split at hp
              · exact h1 ▸ execute_headSeq eng e _ conn _ 1 p hp
              · split at hp
                · simp at hp
                · split at hp
                  · simp only [List.head?_cons, Option.some.injEq] at hp
                    rw [← hp]
                    exact seqByte_buildPacket 1 _
                  · simp only [List.head?_cons, Option.some.injEq] at hp
                    rw [← hp]
                    exact seqByte_buildPacket 1 _
  · exact sendResultSet_seqBytes

/-- C3 witness: a concrete PING reply has sequence byte 1, and a concrete
one-column result set numbers its four packets consecutively. -/
theorem reply_sequence_hardcoded_witness :
    seqByte (buildOkPacket 1 0 0 2 0 "Pong".toList) = 1 ∧
    (sendResultSet 2 freshConn ["a".toList] [] [] [] false).map seqByte
      = seqBytesFrom 2 4 :=
  ⟨reply_sequence_hardcoded.1 Unit unitEngine () emptyRegistry freshConn [0x0e] 9 _ rfl,
    reply_sequence_hardcoded.2 2 freshConn ["a".toList] [] [] [] false⟩

/-! ## Theorems: C8 per-connection statement isolation -/

theorem alookup_eq_none_of_not_mem {α β : Type} [DecidableEq α] {l : List (α × β)} {k : α}
    (h : k ∉ l.map Prod.fst) : alookup l k = none := by
  induction l with
  | nil => rfl
  | cons a t ih =>
    obtain ⟨k0, v0⟩ := a
    simp only [List.map_cons, List.mem_cons] at h
    push_neg at h
    simp only [alookup]
    rw [if_neg (fun hk => h.1 hk.symm)]
    exact ih h.2

theorem aset_eq_append {α β : Type} [DecidableEq α] {l : List (α × β)} {k : α} (v : β)
    (h : alookup l k = none) : aset l k v = l ++ [(k, v)] := by
  unfold aset
  rw [if_neg (by simp [h])]

theorem range'_succ_cons (s n : Nat) :
    List.range' s (n + 1) = s :: List.range' (s + 1) n := rfl

theorem range'_concat (n : Nat) : ∀ s : Nat,
    List.range' s n ++ [s + n] = List.range' s (n + 1) := by
  induction n with
  | zero => intro s; simp [List.range']
  | succ n ih =>
    intro s
    rw [range'_succ_cons s (n + 1), range'_succ_cons s n, List.cons_append,
      show s + (n + 1) = (s + 1) + n from by omega, ih (s + 1)]

theorem mem_range'_lt (n : Nat) : ∀ (s m : Nat), m ∈ List.range' s n → m < s + n := by
  induction n with
  | zero => intro s m h; simp [List.range'] at h
  | succ n ih =>
    intro s m h
    rw [range'_succ_cons] at h
    rcases List.mem_cons.1 h with h1 | h2
    · omega
    · have := ih (s + 1) m h2
      omega

theorem prepare_step_ids {E : Type} (eng : SqlEngine E) (e : E) (r : Registry) (conn : Conn)
    (sql : List Char) (seq : Nat) (hsql : ¬jsTrim sql = [])
    (hkeys : conn.preparedStatements.map Prod.fst
      = List.range' 1 (conn.nextStatementId - 1))
    (hpos : 1 ≤ conn.nextStatementId) :
    (handlePreparedStatementPrepare eng e r conn sql seq).2.1.preparedStatements.map Prod.fst
      = List.range' 1 conn.nextStatementId ∧
    (handlePreparedStatementPrepare eng e r conn sql seq).2.1.nextStatementId
      = conn.nextStatementId + 1 := by
  have hnotmem : conn.nextStatementId ∉ conn.preparedStatements.map Prod.fst := by
    rw [hkeys]
    intro hmem
    have := mem_range'_lt _ _ _ hmem
    omega
  unfold handlePreparedStatementPrepare
  dsimp only
  rw [if_neg hsql]
  dsimp only
  constructor
  · rw [aset_eq_append _ (alookup_eq_none_of_not_mem hnotmem), List.map_append, hkeys]
    have hc := range'_concat (conn.nextStatementId - 1) 1
    rw [show 1 + (conn.nextStatementId - 1) = conn.nextStatementId from by omega,
      show conn.nextStatementId - 1 + 1 = conn.nextStatementId from by omega] at hc
    simpa using hc
  · rfl

theorem prepareMany_ids {E : Type} (eng : SqlEngine E) (e : E) :
    ∀ (sqls : List (List Char)) (r : Registry) (conn : Conn),
    (∀ sql ∈ sqls, ¬jsTrim sql = []) →
    conn.preparedStatements.map Prod.fst = List.range' 1 (conn.nextStatementId - 1) →
    1 ≤ conn.nextStatementId →
    (prepareMany eng e r conn sqls).2.preparedStatements.map Prod.fst
      = List.range' 1 (conn.nextStatementId - 1 + sqls.length) ∧
    (prepareMany eng e r conn sqls).2.nextStatementId
      = conn.nextStatementId + sqls.length := by
  intro sqls
  induction sqls with
  | nil =>
    intro r conn _ hkeys _
    exact ⟨by simpa [prepareMany] using hkeys, by simp [prepareMany]⟩
  | cons sql rest ih =>
    intro r conn hall hkeys hpos
    have hstep := prepare_step_ids eng e r conn sql 1 (hall sql (by simp)) hkeys hpos
    unfold prepareMany
    dsimp only
    have hrec := ih (handlePreparedStatementPrepare eng e r conn sql 1).1
      (handlePreparedStatementPrepare eng e r conn sql 1).2.1
      (fun s hs => hall s (by simp [hs]))
      (by rw [hstep.1, hstep.2]; congr 1)
      (by rw [hstep.2]; omega)
    rw [hstep.2] at hrec
    constructor
    · rw [hrec.1]
      congr 1
      simp only [List.length_cons]
      omega
    · rw [hrec.2]
      simp only [List.length_cons]
      omega

/-- C8: prepared-statement state is isolated per connection. (1) On a fresh
connection, successive non-empty STMT_PREPAREs are assigned the statement ids
1, 2, ..., n (the registry keys after n prepares are exactly `range' 1 n` and
the counter stands at n + 1), so two connections preparing independently each
receive 1, 2, 3, ...; (2) dispatching any command packet (prepare, execute,
close, or anything else) to connection `i` of the server leaves every other
connection's state — in particular its prepared-statement registry — exactly
unchanged. -/
theorem statement_isolation :
    (∀ (E : Type) (eng : SqlEngine E) (e : E) (r : Registry) (sqls : List (List Char)),
      (∀ sql ∈ sqls, ¬jsTrim sql = []) →
      (prepareMany eng e r freshConn sqls).2.preparedStatements.map Prod.fst
        = List.range' 1 sqls.length ∧
      (prepareMany eng e r freshConn sqls).2.nextStatementId = sqls.length + 1) ∧
    (∀ (E : Type) (eng : SqlEngine E) (s : Server E) (i j : Nat) (payload : List Nat)
        (sequenceId : Nat), j ≠ i →
      (serverHandleCommand eng s i payload sequenceId).1.conns.get? j
        = s.conns.get? j) := by
  constructor
  · intro E eng e r sqls hall
    have hfresh : freshConn.nextStatementId = 1 := rfl
    have h := prepareMany_ids eng e sqls r freshConn hall (by simp [freshConn])
      (by simp [freshConn])
    constructor
    · rw [h.1]
      congr 1
      omega
    · rw [h.2, hfresh]
      exact Nat.add_comm 1 sqls.length
  · intro E eng s i j payload sequenceId hne
    unfold serverHandleCommand
    cases hget : s.conns.get? i with
    | none => rfl
    | some c =>
      dsimp only
      exact List.get?_set_ne _ _ (fun he => hne he.symm)

/-- C8 witness: two prepares on a fresh connection yield ids [1, 2] and
counter 3; a command on connection 0 leaves connection 1 untouched. -/
theorem statement_isolation_witness :
    ((prepareMany unitEngine () emptyRegistry freshConn
        ["INSERT INTO t VALUES (?)".toList, "SELECT 1".toList]).2.preparedStatements.map
        Prod.fst = List.range' 1 2 ∧
      (prepareMany unitEngine () emptyRegistry freshConn
        ["INSERT INTO t VALUES (?)".toList, "SELECT 1".toList]).2.nextStatementId = 3) ∧
    (serverHandleCommand unitEngine
        { engine := (), registry := emptyRegistry, conns := [freshConn, connOnD] } 0
        [0x0e] 0).1.conns.get? 1
      = some connOnD := by
  constructor
  · exact statement_isolation.1 Unit unitEngine () emptyRegistry
      ["INSERT INTO t VALUES (?)".toList, "SELECT 1".toList] (by decide)
  · rw [statement_isolation.2 Unit unitEngine
      { engine := (), registry := emptyRegistry, conns := [freshConn, connOnD] } 0 1
      [0x0e] 0 (by decide)]
    rfl

end MysqlSim
